import Mathlib

/-!
# Point cloud viewer: format dispatch, colour detection and load orchestration

A shallow embedding of `src/main.cpp`.

* `std::string` values are lists of characters (`CppString`).
* `std::filesystem::path::extension` is external library code; `extension`
  follows the C++17 rules for the generic (POSIX, `/`-separated) path format.
* `::tolower` is the C-locale mapping (the program never calls `setlocale`).
* Everything the program does to the outside world (console output, the
  existence check, the PCL parsers, the visualizer) is recorded, in program
  order, in a trace of `Event`s; what the outside world answers is supplied by
  a `World` of oracles.
* `fs::exists(filename)` is the throwing overload and `main` has no handler:
  when the status query fails with an error other than "not found" the call
  throws `filesystem_error`, `std::terminate` ends the process, and `main`
  returns nothing. Such a run has `aborted = true` and `exit = none`; what the
  runtime's terminate handler prints is not an event of the program.
* The render loop `while (!viewer->wasStopped()) viewer->spinOnce(100);` need
  not terminate, so `main` takes a fuel bounding the number of loop tests; a
  run whose fuel is used up has `exit = none` and `aborted = false`.
-/

namespace PointCloudViewer

/-! ## Strings and the format resolver -/

/-- A `std::string`: a sequence of characters. -/
abbrev CppString := List Char

/-- The enumeration `enum class FileFormat { PCD, PLY, UNKNOWN };`. -/
inductive FileFormat where
  | PCD
  | PLY
  | UNKNOWN
  deriving DecidableEq, Repr

/-- C-locale `::tolower`: the letters `A`..`Z` are moved to `a`..`z`, every
other character is returned unchanged. -/
def tolower (c : Char) : Char :=
  if 65 ≤ c.toNat ∧ c.toNat ≤ 90 then Char.ofNat (c.toNat + 32) else c

/-- The call `std::transform(ext.begin(), ext.end(), ext.begin(), ::tolower)`. -/
def transformToLower (s : CppString) : CppString :=
  s.map tolower

/-- The member `fs::path::filename()` in the generic format: the characters after the last
directory separator `/` (the whole string when there is none, the empty string
when the path ends with a separator). -/
def pathFilename (p : CppString) : CppString :=
  p.foldl (fun acc c => if c = '/' then [] else acc ++ [c]) []

/-- The suffix of `f` that starts at its last period, if `f` has a period
(`f.rfind('.')`). -/
def lastDotSuffix : CppString → Option CppString
  | [] => none
  | c :: cs =>
    match lastDotSuffix cs with
    | some s => some s
    | none => if c = '.' then some (c :: cs) else none

/-- The member `fs::path::extension()` of a path: with `f` the filename, the empty string
when `f` is `.` or `..`, has no period, or has its only period in front;
otherwise the suffix of `f` from its last period on. -/
def extension (p : CppString) : CppString :=
  let f := pathFilename p
  if f = ['.'] ∨ f = ['.', '.'] then []
  else
    match lastDotSuffix f with
    | none => []
    | some s => if s.length = f.length then [] else s

/-- The function `FileFormat getFileFormat(const std::string& filename)`. -/
def getFileFormat (filename : CppString) : FileFormat :=
  let ext := transformToLower (extension filename)
  if ext = ['.', 'p', 'c', 'd'] then FileFormat.PCD
  else if ext = ['.', 'p', 'l', 'y'] then FileFormat.PLY
  else FileFormat.UNKNOWN

/-! ## Points, clouds and the outside world -/

/-- The bit pattern of a `float` coordinate; the program never computes with
coordinates. -/
abbrev FloatBits := Nat

/-- The point type `pcl::PointXYZ`. -/
structure PointXYZ where
  x : FloatBits
  y : FloatBits
  z : FloatBits
  deriving DecidableEq, Repr

/-- The point type `pcl::PointXYZRGB`; the colour channels are `std::uint8_t`. -/
structure PointXYZRGB where
  x : FloatBits
  y : FloatBits
  z : FloatBits
  r : Fin 256
  g : Fin 256
  b : Fin 256
  deriving DecidableEq, Repr

/-- The two instantiations of the template parameter `PointT`. -/
inductive PointRep where
  | XYZ
  | XYZRGB
  deriving DecidableEq, Repr

/-- The point type of a representation. -/
@[reducible] def PointRep.Point : PointRep → Type
  | PointRep.XYZ => PointXYZ
  | PointRep.XYZRGB => PointXYZRGB

/-- One operand of a chain of `<<` insertions into a stream. -/
inductive OutItem where
  | lit (s : String)
  | str (s : CppString)
  | size (n : Nat)
  | endl
  deriving DecidableEq, Repr

/-- What the program does to the outside world, one constructor per kind of
call. -/
inductive Event where
  /-- One statement inserting into `std::cout`. -/
  | cout (items : List OutItem)
  /-- One statement inserting into `std::cerr`. -/
  | cerr (items : List OutItem)
  /-- The call `fs::exists(path)`. -/
  | fsExists (path : CppString)
  /-- The call `loadPointCloud<PointT>(filename, cloud)`. -/
  | loadCall (rep : PointRep) (filename : CppString)
  /-- The call `pcl::io::loadPCDFile<PointT>` (`fmt = PCD`) or
  `pcl::io::loadPLYFile<PointT>` (`fmt = PLY`). -/
  | parserCall (fmt : FileFormat) (rep : PointRep) (filename : CppString)
  /-- The call `new pcl::visualization::PCLVisualizer(title)`. -/
  | viewerNew (title : String)
  /-- The call `viewer->setBackgroundColor(r, g, b)`, the arguments in tenths. -/
  | setBackgroundColor (r10 g10 b10 : Nat)
  /-- The call `addPointCloud<PointXYZRGB>(cloud, PointCloudColorHandlerRGBField(cloud), id)`. -/
  | addPointCloudRGBField (cloud : List PointXYZRGB) (id : String)
  /-- The call `addPointCloud<PointXYZ>(cloud, PointCloudColorHandlerCustom(cloud, r, g, b), id)`. -/
  | addPointCloudCustom (cloud : List PointXYZ) (r g b : Nat) (id : String)
  /-- The call `setPointCloudRenderingProperties(PCL_VISUALIZER_POINT_SIZE, value, id)`. -/
  | setPointSize (value : Nat) (id : String)
  /-- The call `viewer->addCoordinateSystem(scale)`, `scale` in tenths. -/
  | addCoordinateSystem (scale10 : Nat)
  | initCameraParameters
  | resetCamera
  /-- The call `viewer->wasStopped()` and its answer. -/
  | wasStopped (answer : Bool)
  /-- The call `viewer->spinOnce(ms)`. -/
  | spinOnce (ms : Nat)
  deriving DecidableEq, Repr

/-- The PCL readers for one point type. A reader is given the file name and
the cloud it may overwrite, and answers its `int` return code and the cloud it
leaves behind. -/
structure Parsers (rep : PointRep) where
  loadPCDFile : CppString → List rep.Point → Int × List rep.Point
  loadPLYFile : CppString → List rep.Point → Int × List rep.Point

/-- The answers of the outside world. -/
structure World where
  /-- The outcome of `fs::exists(path)`: `some b` when the call returns `b`,
  `none` when it throws `std::filesystem::filesystem_error` (the status query
  failed with an error other than "not found": name too long, symbolic link
  loop, search permission denied, ...). -/
  fsExists : CppString → Option Bool
  /-- The PCL readers, per point type. -/
  parsers : (rep : PointRep) → Parsers rep
  /-- The answer of the `k`-th call (from 0) of `viewer->wasStopped()`. -/
  wasStopped : Nat → Bool

/-! ## The cloud loader -/

/-- What a call of `loadPointCloud` leaves behind: its `bool` result, the
caller's cloud afterwards, and the events of the call. -/
structure LoadResult (rep : PointRep) where
  ok : Bool
  cloud : List rep.Point
  events : List Event

/-- The function `template<typename PointT> bool loadPointCloud(filename, cloud)`. -/
def loadPointCloud (rep : PointRep) (io : Parsers rep) (filename : CppString)
    (cloud : List rep.Point) : LoadResult rep :=
  match getFileFormat filename with
  | FileFormat.PCD =>
    let r := io.loadPCDFile filename cloud
    if r.1 = -1 then
      { ok := false, cloud := r.2,
        events := [Event.loadCall rep filename,
                   Event.parserCall FileFormat.PCD rep filename,
                   Event.cerr [OutItem.lit "Error: Could not load PCD file: ",
                               OutItem.str filename, OutItem.endl]] }
    else
      { ok := true, cloud := r.2,
        events := [Event.loadCall rep filename,
                   Event.parserCall FileFormat.PCD rep filename] }
  | FileFormat.PLY =>
    let r := io.loadPLYFile filename cloud
    if r.1 = -1 then
      { ok := false, cloud := r.2,
        events := [Event.loadCall rep filename,
                   Event.parserCall FileFormat.PLY rep filename,
                   Event.cerr [OutItem.lit "Error: Could not load PLY file: ",
                               OutItem.str filename, OutItem.endl]] }
    else
      { ok := true, cloud := r.2,
        events := [Event.loadCall rep filename,
                   Event.parserCall FileFormat.PLY rep filename] }
  | FileFormat.UNKNOWN =>
    { ok := false, cloud := cloud,
      events := [Event.loadCall rep filename,
                 Event.cerr [OutItem.lit "Error: Unknown file format for: ",
                             OutItem.str filename, OutItem.endl]] }

/-! ## The program -/

/-- The operands of the single `std::cout` statement of `printUsage`. -/
def usageItems (program_name : CppString) : List OutItem :=
  [OutItem.lit "Usage: ", OutItem.str program_name, OutItem.lit " <point_cloud_file>\n",
   OutItem.lit "\nSupported formats:\n",
   OutItem.lit "  .pcd - Point Cloud Data format\n",
   OutItem.lit "  .ply - Polygon File Format\n",
   OutItem.lit "\nViewer controls:\n",
   OutItem.lit "  Mouse left button   - Rotate view\n",
   OutItem.lit "  Mouse middle button - Pan view\n",
   OutItem.lit "  Mouse wheel         - Zoom in/out\n",
   OutItem.lit "  r                   - Reset camera\n",
   OutItem.lit "  g                   - Show/hide coordinate system\n",
   OutItem.lit "  j                   - Take screenshot\n",
   OutItem.lit "  q                   - Quit\n"]

/-- The function `void printUsage(const char* program_name)`. -/
def printUsage (program_name : CppString) : List Event :=
  [Event.cout (usageItems program_name)]

/-- The colour scan of `main` (lines 85-91): `all_black` starts `true` and the
loop over the cloud clears it, and stops, at the first point with a non-zero
channel. The result is the final `all_black`. -/
def scanAllBlack : List PointXYZRGB → Bool
  | [] => true
  | pt :: rest => if pt.r ≠ 0 ∨ pt.g ≠ 0 ∨ pt.b ≠ 0 then false else scanAllBlack rest

/-- Lines 82-93 of `main`: the value of `has_color` once the colored load has
answered `loaded` and left `cloud_rgb`: `false` unless the load succeeded with a
non-empty cloud, and then the negation of the scan's `all_black`. -/
def detectColor (loaded : Bool) (cloud_rgb : List PointXYZRGB) : Bool :=
  if loaded && decide (cloud_rgb.length > 0) then !scanAllBlack cloud_rgb else false

/-- The loop `while (!viewer->wasStopped()) { viewer->spinOnce(100); }`, begun
at the `k`-th call of `wasStopped`, with at most `fuel` loop tests. The events
of the loop, and whether the loop was left. -/
def renderLoop (wasStopped : Nat → Bool) : Nat → Nat → List Event × Bool
  | 0, _ => ([], false)
  | fuel + 1, k =>
    if wasStopped k then ([Event.wasStopped true], true)
    else
      let r := renderLoop wasStopped fuel (k + 1)
      (Event.wasStopped false :: Event.spinOnce 100 :: r.1, r.2)

/-- One run of `main`: the events in program order, the value `main` returned
(`none` when `main` did not return: the render loop was still running as the
fuel ran out, or the run was aborted), the value of the local `has_color` at
the `if (!has_color)` test (`none` when the run ended before that test), and
whether the run was ended by `std::terminate` on an uncaught exception. -/
structure Run where
  trace : List Event
  exit : Option Int
  has_color : Option Bool
  aborted : Bool

/-- Lines 101-131 of `main`: everything after the loads. -/
def mainShow (w : World) (has_color : Bool) (cloud_rgb : List PointXYZRGB)
    (cloud_xyz : List PointXYZ) (fuel : Nat) (sofar : List Event) : Run :=
  let num_points := if has_color then cloud_rgb.length else cloud_xyz.length
  let sofar := sofar ++ [Event.cout [OutItem.lit "Loaded ", OutItem.size num_points,
                                      OutItem.lit " points", OutItem.endl]]
  if num_points = 0 then
    { trace := sofar ++ [Event.cerr [OutItem.lit "Error: Point cloud is empty", OutItem.endl]],
      exit := some 1, has_color := some has_color, aborted := false }
  else
    let sofar := sofar ++ [Event.viewerNew "Point Cloud Viewer", Event.setBackgroundColor 1 1 1]
    let sofar := sofar ++
      (if has_color then [Event.addPointCloudRGBField cloud_rgb "cloud"]
       else [Event.addPointCloudCustom cloud_xyz 255 255 255 "cloud"])
    let sofar := sofar ++ [Event.setPointSize 2 "cloud", Event.addCoordinateSystem 10,
                           Event.initCameraParameters, Event.resetCamera,
                           Event.cout [OutItem.lit "Viewer started. Press 'q' to quit.",
                                       OutItem.endl]]
    let loop := renderLoop w.wasStopped fuel 0
    { trace := sofar ++ loop.1,
      exit := if loop.2 then some 0 else none,
      has_color := some has_color, aborted := false }

/-- The call `loadPointCloud<pcl::PointXYZRGB>(filename, cloud_rgb)` of line 84;
`cloud_rgb` is the freshly made, empty cloud. -/
def coloredLoad (w : World) (filename : CppString) : LoadResult PointRep.XYZRGB :=
  loadPointCloud PointRep.XYZRGB (w.parsers PointRep.XYZRGB) filename []

/-- The call `loadPointCloud<pcl::PointXYZ>(filename, cloud_xyz)` of line 96;
`cloud_xyz` is the freshly made, empty cloud. -/
def plainLoad (w : World) (filename : CppString) : LoadResult PointRep.XYZ :=
  loadPointCloud PointRep.XYZ (w.parsers PointRep.XYZ) filename []

/-- The function `int main(int argc, char** argv)`. `program_name` is `argv[0]` and `args`
are `argv[1]`, ..., so `argc = 1 + args.length`. -/
def main (w : World) (program_name : CppString) (args : List CppString) (fuel : Nat) : Run :=
  match args with
  | [] =>
    { trace := printUsage program_name, exit := some 1, has_color := none, aborted := false }
  | filename :: _ =>
    match w.fsExists filename with
    | none =>
      { trace := [Event.fsExists filename], exit := none, has_color := none, aborted := true }
    | some false =>
      { trace := [Event.fsExists filename,
                  Event.cerr [OutItem.lit "Error: File does not exist: ",
                              OutItem.str filename, OutItem.endl]],
        exit := some 1, has_color := none, aborted := false }
    | some true =>
      let sofar := [Event.fsExists filename,
                    Event.cout [OutItem.lit "Loading point cloud from: ",
                                OutItem.str filename, OutItem.endl]]
      let colored := coloredLoad w filename
      let cloud_rgb : List PointXYZRGB := colored.cloud
      let sofar := sofar ++ colored.events
      let has_color := detectColor colored.ok cloud_rgb
      if !has_color then
        let plain := plainLoad w filename
        let sofar := sofar ++ plain.events
        if !plain.ok then
          { trace := sofar, exit := some 1, has_color := some has_color, aborted := false }
        else
          mainShow w has_color cloud_rgb plain.cloud fuel sofar
      else
        mainShow w has_color cloud_rgb [] fuel sofar

/-! ## Names for the messages and event groups of `main` -/

/-- The events between the point count message and the render loop. -/
def viewerSetup (has_color : Bool) (cloud_rgb : List PointXYZRGB) (cloud_xyz : List PointXYZ) :
    List Event :=
  [Event.viewerNew "Point Cloud Viewer", Event.setBackgroundColor 1 1 1,
   (if has_color then Event.addPointCloudRGBField cloud_rgb "cloud"
    else Event.addPointCloudCustom cloud_xyz 255 255 255 "cloud"),
   Event.setPointSize 2 "cloud", Event.addCoordinateSystem 10,
   Event.initCameraParameters, Event.resetCamera,
   Event.cout [OutItem.lit "Viewer started. Press 'q' to quit.", OutItem.endl]]

/-- The message `Loaded n points`. -/
def loadedMsg (n : Nat) : Event :=
  Event.cout [OutItem.lit "Loaded ", OutItem.size n, OutItem.lit " points", OutItem.endl]

/-- The message `Loading point cloud from: filename`. -/
def loadingMsg (filename : CppString) : Event :=
  Event.cout [OutItem.lit "Loading point cloud from: ", OutItem.str filename, OutItem.endl]

/-- The message `Error: Point cloud is empty`. -/
def emptyMsg : Event :=
  Event.cerr [OutItem.lit "Error: Point cloud is empty", OutItem.endl]

/-- The message `Error: File does not exist: filename`. -/
def missingMsg (filename : CppString) : Event :=
  Event.cerr [OutItem.lit "Error: File does not exist: ", OutItem.str filename, OutItem.endl]

/-- Readers that answer the same return code and cloud for every file. -/
def constParsers (rep : PointRep) (code : Int) (cloud : List rep.Point) : Parsers rep :=
  { loadPCDFile := fun _ _ => (code, cloud),
    loadPLYFile := fun _ _ => (code, cloud) }

/-- A world in which `fs::exists` always returns `present`, the colored readers
always answer `codeRGB` and leave `cloudRGB`, the plain readers always answer
`codeXYZ` and leave `cloudXYZ`, and the viewer window is closed before the
first loop test. -/
def sampleWorld (present : Bool) (codeRGB : Int) (cloudRGB : List PointXYZRGB)
    (codeXYZ : Int) (cloudXYZ : List PointXYZ) : World :=
  { fsExists := fun _ => some present,
    parsers := fun rep =>
      match rep with
      | PointRep.XYZ => constParsers PointRep.XYZ codeXYZ cloudXYZ
      | PointRep.XYZRGB => constParsers PointRep.XYZRGB codeRGB cloudRGB,
    wasStopped := fun _ => true }

/-- The resolver and `extension` on sample paths: a directory with a period, a
period-led file name, a trailing separator, several periods, a trailing period. -/
theorem getFileFormat_samples :
    getFileFormat "/x.d/a.Pcd".toList = FileFormat.PCD ∧
    getFileFormat "/x.pcd/a".toList = FileFormat.UNKNOWN ∧
    getFileFormat ".pcd".toList = FileFormat.UNKNOWN ∧
    getFileFormat "..ply".toList = FileFormat.PLY ∧
    getFileFormat "a.ply/".toList = FileFormat.UNKNOWN ∧
    getFileFormat "a.pcd.ply".toList = FileFormat.PLY ∧
    extension "a.b.c".toList = ".c".toList ∧
    extension "a.".toList = ".".toList ∧
    extension "..".toList = [] := by
  decide

theorem tolower_upper_ne_dot (n : Nat) (h1 : 65 ≤ n) (h2 : n ≤ 90) :
    Char.ofNat (n + 32) ≠ '.' := by
  interval_cases n <;> decide

theorem tolower_eq_dot {c : Char} (h : tolower c = '.') : c = '.' := by
  unfold tolower at h
  split at h
  · next hc => exact absurd h (tolower_upper_ne_dot c.toNat hc.1 hc.2)
  · exact h

theorem tolower_dot : tolower '.' = '.' := by decide

theorem tolower_slash : tolower '/' = '/' := by decide

theorem pathFilename_foldl_plain (acc e : CppString) (he : '/' ∉ e) :
    e.foldl (fun acc c => if c = '/' then [] else acc ++ [c]) acc = acc ++ e := by
  induction e generalizing acc with
  | nil => simp
  | cons c cs ih =>
    have hc : c ≠ '/' := fun h => he (by simp [h])
    have hcs : '/' ∉ cs := fun h => he (by simp [h])
    simp [List.foldl_cons, hc, ih _ hcs]

theorem pathFilename_append (pre e : CppString) (he : '/' ∉ e) :
    pathFilename (pre ++ e) = pathFilename pre ++ e := by
  unfold pathFilename
  rw [List.foldl_append]
  exact pathFilename_foldl_plain _ e he

theorem lastDotSuffix_append (xs e s : CppString) (h : lastDotSuffix e = some s) :
    lastDotSuffix (xs ++ e) = some s := by
  induction xs with
  | nil => simpa using h
  | cons x xs ih => simp [lastDotSuffix, ih]

theorem lastDotSuffix_ext (a b c : Char) (ha : a ≠ '.') (hb : b ≠ '.') (hc : c ≠ '.') :
    lastDotSuffix ['.', a, b, c] = some ['.', a, b, c] := by
  simp [lastDotSuffix, ha, hb, hc]

/-- The extension of a path that ends in a non-separator character followed by
a period and three characters that are neither a period nor a separator is that
four-character suffix. -/
theorem extension_of_suffix (pre : CppString) (x a b c : Char) (hx : x ≠ '/')
    (ha : a ≠ '.') (hb : b ≠ '.') (hc : c ≠ '.')
    (ha' : a ≠ '/') (hb' : b ≠ '/') (hc' : c ≠ '/') :
    extension (pre ++ x :: ['.', a, b, c]) = ['.', a, b, c] := by
  have hsl : '/' ∉ (x :: ['.', a, b, c]) := by
    simp [Ne.symm hx, Ne.symm ha', Ne.symm hb', Ne.symm hc']
  have hf : pathFilename (pre ++ x :: ['.', a, b, c])
      = (pathFilename pre ++ [x]) ++ ['.', a, b, c] := by
    rw [pathFilename_append pre _ hsl]; simp
  have hl := lastDotSuffix_append (pathFilename pre ++ [x]) _ _ (lastDotSuffix_ext a b c ha hb hc)
  have h1 : (pathFilename pre ++ [x]) ++ ['.', a, b, c] ≠ ['.'] := by
    intro h; have := congrArg List.length h; simp at this
  have h2 : (pathFilename pre ++ [x]) ++ ['.', a, b, c] ≠ ['.', '.'] := by
    intro h; have := congrArg List.length h; simp at this
  unfold extension
  simp only [hf, hl, h1, h2, or_self, if_false]
  have h3 : ¬ (['.', a, b, c].length = ((pathFilename pre ++ [x]) ++ ['.', a, b, c]).length) := by
    simp
  simp only [h3, if_false]

/-- A case mix of a four-character extension whose lower-case form is a period
followed by three characters other than a period and a separator. -/
theorem caseMix_shape {e : CppString} {a b c : Char}
    (h : transformToLower e = ['.', a, b, c])
    (ha : a ≠ '.') (hb : b ≠ '.') (hc : c ≠ '.')
    (ha' : a ≠ '/') (hb' : b ≠ '/') (hc' : c ≠ '/') :
    ∃ a0 b0 c0, e = ['.', a0, b0, c0] ∧ a0 ≠ '.' ∧ b0 ≠ '.' ∧ c0 ≠ '.'
      ∧ a0 ≠ '/' ∧ b0 ≠ '/' ∧ c0 ≠ '/' := by
  unfold transformToLower at h
  rcases e with _ | ⟨d, _ | ⟨a0, _ | ⟨b0, _ | ⟨c0, _ | ⟨z, t⟩⟩⟩⟩⟩ <;>
    simp only [List.map_cons, List.map_nil, List.cons.injEq, and_true, reduceCtorEq,
      and_false] at h
  obtain ⟨hd, h1, h2, h3⟩ := h
  refine ⟨a0, b0, c0, by rw [tolower_eq_dot hd], ?_, ?_, ?_, ?_, ?_, ?_⟩
  · rintro rfl; exact ha (by rw [← h1, tolower_dot])
  · rintro rfl; exact hb (by rw [← h2, tolower_dot])
  · rintro rfl; exact hc (by rw [← h3, tolower_dot])
  · rintro rfl; exact ha' (by rw [← h1, tolower_slash])
  · rintro rfl; exact hb' (by rw [← h2, tolower_slash])
  · rintro rfl; exact hc' (by rw [← h3, tolower_slash])

theorem extension_of_caseMix (pre : CppString) (x : Char) (e : CppString) {a b c : Char}
    (hx : x ≠ '/') (h : transformToLower e = ['.', a, b, c])
    (ha : a ≠ '.') (hb : b ≠ '.') (hc : c ≠ '.')
    (ha' : a ≠ '/') (hb' : b ≠ '/') (hc' : c ≠ '/') :
    extension (pre ++ x :: e) = e := by
  obtain ⟨a0, b0, c0, rfl, h1, h2, h3, h4, h5, h6⟩ := caseMix_shape h ha hb hc ha' hb' hc'
  exact extension_of_suffix pre x a0 b0 c0 hx h1 h2 h3 h4 h5 h6

/-! ## Lemmas on the loader and on `main` -/

theorem scanAllBlack_eq_true_iff (cloud : List PointXYZRGB) :
    scanAllBlack cloud = true ↔ ∀ pt ∈ cloud, pt.r = 0 ∧ pt.g = 0 ∧ pt.b = 0 := by
  induction cloud with
  | nil => simp [scanAllBlack]
  | cons pt rest ih =>
    by_cases h : pt.r ≠ 0 ∨ pt.g ≠ 0 ∨ pt.b ≠ 0
    · simp only [scanAllBlack, h, if_true, List.mem_cons, forall_eq_or_imp]
      constructor
      · intro hf; exact absurd hf (by simp)
      · rintro ⟨⟨h1, h2, h3⟩, _⟩
        rcases h with h | h | h
        · exact absurd h1 h
        · exact absurd h2 h
        · exact absurd h3 h
    · simp only [scanAllBlack, h, if_false, List.mem_cons, forall_eq_or_imp, ih]
      push_neg at h
      simp [h]

theorem scanAllBlack_eq_false_iff (cloud : List PointXYZRGB) :
    scanAllBlack cloud = false ↔ ∃ pt ∈ cloud, pt.r ≠ 0 ∨ pt.g ≠ 0 ∨ pt.b ≠ 0 := by
  rw [← Bool.not_eq_true, scanAllBlack_eq_true_iff]
  push_neg
  constructor
  · rintro ⟨pt, hm, h⟩
    refine ⟨pt, hm, ?_⟩
    by_cases h1 : pt.r = 0
    · by_cases h2 : pt.g = 0
      · exact Or.inr (Or.inr (h h1 h2))
      · exact Or.inr (Or.inl h2)
    · exact Or.inl h1
  · rintro ⟨pt, hm, h⟩
    refine ⟨pt, hm, fun h1 h2 => ?_⟩
    rcases h with h | h | h
    · exact absurd h1 h
    · exact absurd h2 h
    · exact h

theorem loadPointCloud_unknown (rep : PointRep) (io : Parsers rep) (f : CppString)
    (c : List rep.Point) (h : getFileFormat f = FileFormat.UNKNOWN) :
    loadPointCloud rep io f c =
      { ok := false, cloud := c,
        events := [Event.loadCall rep f,
                   Event.cerr [OutItem.lit "Error: Unknown file format for: ",
                               OutItem.str f, OutItem.endl]] } := by
  simp [loadPointCloud, h]

theorem loadPointCloud_pcd_fail (rep : PointRep) (io : Parsers rep) (f : CppString)
    (c : List rep.Point) (h : getFileFormat f = FileFormat.PCD)
    (hr : (io.loadPCDFile f c).1 = -1) :
    loadPointCloud rep io f c =
      { ok := false, cloud := (io.loadPCDFile f c).2,
        events := [Event.loadCall rep f, Event.parserCall FileFormat.PCD rep f,
                   Event.cerr [OutItem.lit "Error: Could not load PCD file: ",
                               OutItem.str f, OutItem.endl]] } := by
  simp [loadPointCloud, h, hr]

theorem loadPointCloud_pcd_ok (rep : PointRep) (io : Parsers rep) (f : CppString)
    (c : List rep.Point) (h : getFileFormat f = FileFormat.PCD)
    (hr : (io.loadPCDFile f c).1 ≠ -1) :
    loadPointCloud rep io f c =
      { ok := true, cloud := (io.loadPCDFile f c).2,
        events := [Event.loadCall rep f, Event.parserCall FileFormat.PCD rep f] } := by
  simp [loadPointCloud, h, hr]

theorem loadPointCloud_ply_fail (rep : PointRep) (io : Parsers rep) (f : CppString)
    (c : List rep.Point) (h : getFileFormat f = FileFormat.PLY)
    (hr : (io.loadPLYFile f c).1 = -1) :
    loadPointCloud rep io f c =
      { ok := false, cloud := (io.loadPLYFile f c).2,
        events := [Event.loadCall rep f, Event.parserCall FileFormat.PLY rep f,
                   Event.cerr [OutItem.lit "Error: Could not load PLY file: ",
                               OutItem.str f, OutItem.endl]] } := by
  simp [loadPointCloud, h, hr]

theorem loadPointCloud_ply_ok (rep : PointRep) (io : Parsers rep) (f : CppString)
    (c : List rep.Point) (h : getFileFormat f = FileFormat.PLY)
    (hr : (io.loadPLYFile f c).1 ≠ -1) :
    loadPointCloud rep io f c =
      { ok := true, cloud := (io.loadPLYFile f c).2,
        events := [Event.loadCall rep f, Event.parserCall FileFormat.PLY rep f] } := by
  simp [loadPointCloud, h, hr]

/-- The two shapes of the events of a `loadPointCloud` call: a successful call
is the call event and one parser call; a failed call is the call event, at most
one parser call, and one message on standard error. -/
theorem loadPointCloud_shape (rep : PointRep) (io : Parsers rep) (f : CppString)
    (c : List rep.Point) :
    ((loadPointCloud rep io f c).ok = true ∧
      ∃ fmt, (loadPointCloud rep io f c).events
        = [Event.loadCall rep f, Event.parserCall fmt rep f]) ∨
    ((loadPointCloud rep io f c).ok = false ∧
      ∃ mid items, (loadPointCloud rep io f c).events
        = Event.loadCall rep f :: (mid ++ [Event.cerr items]) ∧
        (mid = [] ∨ ∃ fmt, mid = [Event.parserCall fmt rep f])) := by
  cases hfmt : getFileFormat f with
  | UNKNOWN =>
    rw [loadPointCloud_unknown rep io f c hfmt]
    exact Or.inr ⟨rfl, [], _, rfl, Or.inl rfl⟩
  | PCD =>
    by_cases hr : (io.loadPCDFile f c).1 = -1
    · rw [loadPointCloud_pcd_fail rep io f c hfmt hr]
      exact Or.inr ⟨rfl, [Event.parserCall FileFormat.PCD rep f], _, rfl, Or.inr ⟨_, rfl⟩⟩
    · rw [loadPointCloud_pcd_ok rep io f c hfmt hr]
      exact Or.inl ⟨rfl, _, rfl⟩
  | PLY =>
    by_cases hr : (io.loadPLYFile f c).1 = -1
    · rw [loadPointCloud_ply_fail rep io f c hfmt hr]
      exact Or.inr ⟨rfl, [Event.parserCall FileFormat.PLY rep f], _, rfl, Or.inr ⟨_, rfl⟩⟩
    · rw [loadPointCloud_ply_ok rep io f c hfmt hr]
      exact Or.inl ⟨rfl, _, rfl⟩

theorem detectColor_eq_true_iff (loaded : Bool) (cloud : List PointXYZRGB) :
    detectColor loaded cloud = true ↔
      loaded = true ∧ ∃ pt ∈ cloud, pt.r ≠ 0 ∨ pt.g ≠ 0 ∨ pt.b ≠ 0 := by
  unfold detectColor
  cases loaded with
  | false => simp
  | true =>
    cases cloud with
    | nil => simp
    | cons pt rest =>
      have := scanAllBlack_eq_false_iff (pt :: rest)
      simp only [Bool.true_and, List.length_cons, gt_iff_lt, Nat.zero_lt_succ, decide_True,
        if_true, Bool.not_eq_true', this, true_and]

theorem detectColor_eq_false_iff (loaded : Bool) (cloud : List PointXYZRGB) :
    detectColor loaded cloud = false ↔
      loaded = false ∨ ∀ pt ∈ cloud, pt.r = 0 ∧ pt.g = 0 ∧ pt.b = 0 := by
  rw [← scanAllBlack_eq_true_iff, ← Bool.not_eq_true, detectColor_eq_true_iff,
    ← scanAllBlack_eq_false_iff]
  cases loaded <;> simp

/-- The render loop only queries `wasStopped` and calls `spinOnce(100)`. -/
theorem renderLoop_mem (ws : Nat → Bool) (fuel k : Nat) (e : Event)
    (he : e ∈ (renderLoop ws fuel k).1) :
    e = Event.wasStopped true ∨ e = Event.wasStopped false ∨ e = Event.spinOnce 100 := by
  induction fuel generalizing k with
  | zero => simp [renderLoop] at he
  | succ n ih =>
    unfold renderLoop at he
    split at he
    · simp at he; exact Or.inl he
    · simp only [List.mem_cons] at he
      rcases he with he | he | he
      · exact Or.inr (Or.inl he)
      · exact Or.inr (Or.inr he)
      · exact ih _ he

/-- Once `wasStopped` answers `true` at its `n`-th call, every fuel above `n`
lets the render loop finish. -/
theorem renderLoop_terminates (ws : Nat → Bool) (n k fuel : Nat) (hn : ws (k + n) = true)
    (hf : n < fuel) : (renderLoop ws fuel k).2 = true := by
  induction n generalizing k fuel with
  | zero =>
    cases fuel with
    | zero => omega
    | succ m => simp [renderLoop, show ws k = true by simpa using hn]
  | succ n ih =>
    cases fuel with
    | zero => omega
    | succ m =>
      unfold renderLoop
      split
      · rfl
      · exact ih (k + 1) m (by rw [← hn]; congr 1; omega) (by omega)

theorem mainShow_empty (w : World) (hc : Bool) (rgb : List PointXYZRGB) (xyz : List PointXYZ)
    (fuel : Nat) (sofar : List Event)
    (hn : (if hc then rgb.length else xyz.length) = 0) :
    mainShow w hc rgb xyz fuel sofar =
      { trace := sofar ++ [loadedMsg 0, emptyMsg], exit := some 1, has_color := some hc,
        aborted := false } := by
  simp [mainShow, hn, loadedMsg, emptyMsg]

theorem mainShow_view (w : World) (hc : Bool) (rgb : List PointXYZRGB) (xyz : List PointXYZ)
    (fuel : Nat) (sofar : List Event)
    (hn : (if hc then rgb.length else xyz.length) ≠ 0) :
    mainShow w hc rgb xyz fuel sofar =
      { trace := sofar ++ loadedMsg (if hc then rgb.length else xyz.length)
                   :: (viewerSetup hc rgb xyz ++ (renderLoop w.wasStopped fuel 0).1),
        exit := if (renderLoop w.wasStopped fuel 0).2 then some 0 else none,
        has_color := some hc, aborted := false } := by
  cases hc <;> simp [mainShow, hn, loadedMsg, viewerSetup] <;> simp_all

theorem main_noargs (w : World) (prog : CppString) (fuel : Nat) :
    main w prog [] fuel =
      { trace := [Event.cout (usageItems prog)], exit := some 1, has_color := none,
        aborted := false } := rfl

theorem main_missing (w : World) (prog f : CppString) (rest : List CppString) (fuel : Nat)
    (h : w.fsExists f = some false) :
    main w prog (f :: rest) fuel =
      { trace := [Event.fsExists f, missingMsg f], exit := some 1, has_color := none,
        aborted := false } := by
  simp [main, h, missingMsg]

theorem main_throws (w : World) (prog f : CppString) (rest : List CppString) (fuel : Nat)
    (h : w.fsExists f = none) :
    main w prog (f :: rest) fuel =
      { trace := [Event.fsExists f], exit := none, has_color := none, aborted := true } := by
  simp [main, h]

/-- The run of `main` on an existing file whose colored load gives a colour:
the cloud is shown, with the RGB field colour mapping. -/
theorem main_colored (w : World) (prog f : CppString) (rest : List CppString) (fuel : Nat)
    (h : w.fsExists f = some true)
    (hc : detectColor (coloredLoad w f).ok (coloredLoad w f).cloud = true) :
    main w prog (f :: rest) fuel =
      { trace := [Event.fsExists f, loadingMsg f] ++ (coloredLoad w f).events
          ++ loadedMsg (coloredLoad w f).cloud.length
          :: (viewerSetup true (coloredLoad w f).cloud []
              ++ (renderLoop w.wasStopped fuel 0).1),
        exit := if (renderLoop w.wasStopped fuel 0).2 then some 0 else none,
        has_color := some true, aborted := false } := by
  have hn : (if true = true then (coloredLoad w f).cloud.length
      else ([] : List PointXYZ).length) ≠ 0 := by
    obtain ⟨_, pt, hm, _⟩ := (detectColor_eq_true_iff _ _).1 hc
    simp only [if_true]
    intro h0
    rw [List.length_eq_zero] at h0
    rw [h0] at hm
    simp at hm
  have := mainShow_view w true (coloredLoad w f).cloud [] fuel
    ([Event.fsExists f, loadingMsg f] ++ (coloredLoad w f).events) hn
  simp only [if_true] at this
  rw [← this]
  simp [main, h, hc, loadingMsg]

theorem main_plain_fail (w : World) (prog f : CppString) (rest : List CppString) (fuel : Nat)
    (h : w.fsExists f = some true)
    (hc : detectColor (coloredLoad w f).ok (coloredLoad w f).cloud = false)
    (hp : (plainLoad w f).ok = false) :
    main w prog (f :: rest) fuel =
      { trace := [Event.fsExists f, loadingMsg f] ++ (coloredLoad w f).events
          ++ (plainLoad w f).events,
        exit := some 1, has_color := some false, aborted := false } := by
  simp [main, h, hc, hp, loadingMsg]

theorem main_plain_empty (w : World) (prog f : CppString) (rest : List CppString) (fuel : Nat)
    (h : w.fsExists f = some true)
    (hc : detectColor (coloredLoad w f).ok (coloredLoad w f).cloud = false)
    (hp : (plainLoad w f).ok = true) (hn : (plainLoad w f).cloud.length = 0) :
    main w prog (f :: rest) fuel =
      { trace := [Event.fsExists f, loadingMsg f] ++ (coloredLoad w f).events
          ++ (plainLoad w f).events ++ [loadedMsg 0, emptyMsg],
        exit := some 1, has_color := some false, aborted := false } := by
  have := mainShow_empty w false (coloredLoad w f).cloud (plainLoad w f).cloud fuel
    ([Event.fsExists f, loadingMsg f] ++ (coloredLoad w f).events ++ (plainLoad w f).events)
    (by simpa using hn)
  rw [← this]
  simp [main, h, hc, hp, loadingMsg]

theorem main_plain_view (w : World) (prog f : CppString) (rest : List CppString) (fuel : Nat)
    (h : w.fsExists f = some true)
    (hc : detectColor (coloredLoad w f).ok (coloredLoad w f).cloud = false)
    (hp : (plainLoad w f).ok = true) (hn : (plainLoad w f).cloud.length ≠ 0) :
    main w prog (f :: rest) fuel =
      { trace := [Event.fsExists f, loadingMsg f] ++ (coloredLoad w f).events
          ++ (plainLoad w f).events ++ loadedMsg (plainLoad w f).cloud.length
          :: (viewerSetup false (coloredLoad w f).cloud (plainLoad w f).cloud
              ++ (renderLoop w.wasStopped fuel 0).1),
        exit := if (renderLoop w.wasStopped fuel 0).2 then some 0 else none,
        has_color := some false, aborted := false } := by
  have := mainShow_view w false (coloredLoad w f).cloud (plainLoad w f).cloud fuel
    ([Event.fsExists f, loadingMsg f] ++ (coloredLoad w f).events ++ (plainLoad w f).events)
    (by simpa using hn)
  simp only [Bool.false_eq_true, if_false] at this
  rw [← this]
  simp [main, h, hc, hp, loadingMsg]

/-- Which events a `loadPointCloud` call can leave. -/
theorem loadPointCloud_mem (rep : PointRep) (io : Parsers rep) (f : CppString)
    (c : List rep.Point) (e : Event) (he : e ∈ (loadPointCloud rep io f c).events) :
    e = Event.loadCall rep f ∨ (∃ fmt, e = Event.parserCall fmt rep f) ∨
      (∃ items, e = Event.cerr items ∧ (loadPointCloud rep io f c).ok = false) := by
  rcases loadPointCloud_shape rep io f c with ⟨_, fmt, hev⟩ | ⟨hok, mid, items, hev, hmid⟩
  · rw [hev] at he
    simp only [List.mem_cons, List.mem_singleton, List.mem_nil_iff, or_false] at he
    rcases he with he | he
    · exact Or.inl he
    · exact Or.inr (Or.inl ⟨fmt, he⟩)
  · rw [hev] at he
    rcases hmid with rfl | ⟨fmt, rfl⟩
    · simp only [List.nil_append, List.mem_cons, List.mem_singleton, List.mem_nil_iff,
        or_false] at he
      rcases he with he | he
      · exact Or.inl he
      · exact Or.inr (Or.inr ⟨items, he, hok⟩)
    · simp only [List.singleton_append, List.mem_cons, List.mem_singleton, List.mem_nil_iff,
        or_false] at he
      rcases he with he | he | he
      · exact Or.inl he
      · exact Or.inr (Or.inl ⟨fmt, he⟩)
      · exact Or.inr (Or.inr ⟨items, he, hok⟩)

/-- A `loadPointCloud` call records itself once, and no other load. -/
theorem loadPointCloud_count (rep : PointRep) (io : Parsers rep) (f : CppString)
    (c : List rep.Point) (rep' : PointRep) (g : CppString) :
    List.count (Event.loadCall rep' g) (loadPointCloud rep io f c).events
      = if rep' = rep ∧ g = f then 1 else 0 := by
  rcases loadPointCloud_shape rep io f c with ⟨_, fmt, hev⟩ | ⟨hok, mid, items, hev, hmid⟩
  · rw [hev]
    by_cases h : rep' = rep ∧ g = f
    · obtain ⟨rfl, rfl⟩ := h; simp [List.count_cons]
    · simp only [h, if_false]
      simp only [List.count_cons, List.count_nil, beq_iff_eq, Event.loadCall.injEq,
        reduceCtorEq, if_false]
      have : ¬ (rep = rep' ∧ f = g) := fun hh => h ⟨hh.1.symm, hh.2.symm⟩
      simp [this]
  · rw [hev]
    by_cases h : rep' = rep ∧ g = f
    · obtain ⟨rfl, rfl⟩ := h
      rcases hmid with rfl | ⟨fmt, rfl⟩ <;> simp [List.count_cons]
    · simp only [h, if_false]
      have : ¬ (rep = rep' ∧ f = g) := fun hh => h ⟨hh.1.symm, hh.2.symm⟩
      rcases hmid with rfl | ⟨fmt, rfl⟩ <;> simp [List.count_cons, this]

/-- The render loop records no load. -/
theorem renderLoop_count_loadCall (ws : Nat → Bool) (fuel k : Nat) (rep : PointRep)
    (g : CppString) : List.count (Event.loadCall rep g) (renderLoop ws fuel k).1 = 0 := by
  rw [List.count_eq_zero]
  intro hm
  rcases renderLoop_mem ws fuel k _ hm with h | h | h <;> cases h

/-- An event that is no load call, no parser call and no error message is not
among the events of a `loadPointCloud` call. -/
theorem not_mem_load (rep : PointRep) (io : Parsers rep) (f : CppString)
    (c : List rep.Point) (e : Event) (h1 : ∀ r g, e ≠ Event.loadCall r g)
    (h2 : ∀ fmt r g, e ≠ Event.parserCall fmt r g) (h3 : ∀ items, e ≠ Event.cerr items) :
    e ∉ (loadPointCloud rep io f c).events := by
  intro hm
  rcases loadPointCloud_mem rep io f c e hm with h | ⟨fmt, h⟩ | ⟨items, h, _⟩
  · exact h1 _ _ h
  · exact h2 _ _ _ h
  · exact h3 _ h

/-- An event that is no `wasStopped` and no `spinOnce` call is not among the
events of the render loop. -/
theorem not_mem_renderLoop (ws : Nat → Bool) (fuel k : Nat) (e : Event)
    (h1 : ∀ b, e ≠ Event.wasStopped b) (h2 : ∀ ms, e ≠ Event.spinOnce ms) :
    e ∉ (renderLoop ws fuel k).1 := by
  intro hm
  rcases renderLoop_mem ws fuel k e hm with h | h | h
  · exact h1 _ h
  · exact h1 _ h
  · exact h2 _ h

theorem coloredLoad_count (w : World) (f : CppString) (rep : PointRep) (g : CppString) :
    List.count (Event.loadCall rep g) (coloredLoad w f).events
      = if rep = PointRep.XYZRGB ∧ g = f then 1 else 0 :=
  loadPointCloud_count _ _ _ _ _ _

theorem plainLoad_count (w : World) (f : CppString) (rep : PointRep) (g : CppString) :
    List.count (Event.loadCall rep g) (plainLoad w f).events
      = if rep = PointRep.XYZ ∧ g = f then 1 else 0 :=
  loadPointCloud_count _ _ _ _ _ _

theorem not_mem_coloredLoad (w : World) (f : CppString) (e : Event)
    (h1 : ∀ r g, e ≠ Event.loadCall r g)
    (h2 : ∀ fmt r g, e ≠ Event.parserCall fmt r g) (h3 : ∀ items, e ≠ Event.cerr items) :
    e ∉ (coloredLoad w f).events :=
  not_mem_load _ _ _ _ e h1 h2 h3

theorem not_mem_plainLoad (w : World) (f : CppString) (e : Event)
    (h1 : ∀ r g, e ≠ Event.loadCall r g)
    (h2 : ∀ fmt r g, e ≠ Event.parserCall fmt r g) (h3 : ∀ items, e ≠ Event.cerr items) :
    e ∉ (plainLoad w f).events :=
  not_mem_load _ _ _ _ e h1 h2 h3

/-- The events of a `loadPointCloud` call begin with the call itself. -/
theorem loadPointCloud_events_cons (rep : PointRep) (io : Parsers rep) (f : CppString)
    (c : List rep.Point) :
    (loadPointCloud rep io f c).events
      = Event.loadCall rep f :: (loadPointCloud rep io f c).events.tail := by
  rcases loadPointCloud_shape rep io f c with ⟨_, fmt, hev⟩ | ⟨_, mid, items, hev, _⟩ <;>
    rw [hev] <;> rfl

/-- The only load call among the events of a `loadPointCloud` call is the call
itself. -/
theorem loadCall_mem_load (rep : PointRep) (io : Parsers rep) (f : CppString)
    (c : List rep.Point) (rep' : PointRep) (g : CppString) :
    Event.loadCall rep' g ∈ (loadPointCloud rep io f c).events ↔ rep' = rep ∧ g = f := by
  constructor
  · intro hm
    rcases loadPointCloud_mem rep io f c _ hm with h | ⟨fmt, h⟩ | ⟨items, h, _⟩
    · cases h; exact ⟨rfl, rfl⟩
    · cases h
    · cases h
  · rintro ⟨rfl, rfl⟩
    rw [loadPointCloud_events_cons]
    exact List.mem_cons_self _ _

theorem loadCall_mem_coloredLoad (w : World) (f : CppString) (rep : PointRep) (g : CppString) :
    Event.loadCall rep g ∈ (coloredLoad w f).events ↔ rep = PointRep.XYZRGB ∧ g = f :=
  loadCall_mem_load _ _ _ _ _ _

theorem loadCall_mem_plainLoad (w : World) (f : CppString) (rep : PointRep) (g : CppString) :
    Event.loadCall rep g ∈ (plainLoad w f).events ↔ rep = PointRep.XYZ ∧ g = f :=
  loadCall_mem_load _ _ _ _ _ _

/-- C1: `getFileFormat` answers PCD exactly when the lower-cased extension of
the path is `.pcd`, PLY exactly when it is `.ply`, and UNKNOWN in every other
case, a path without extension included; and every path that ends in a
non-separator character followed by any upper/lower-case mix of `.pcd`
(of `.ply`) is classified PCD (PLY). -/
theorem C1_getFileFormat_classifies :
    (∀ filename : CppString,
      (getFileFormat filename = FileFormat.PCD ↔
        transformToLower (extension filename) = ".pcd".toList) ∧
      (getFileFormat filename = FileFormat.PLY ↔
        transformToLower (extension filename) = ".ply".toList) ∧
      (getFileFormat filename = FileFormat.UNKNOWN ↔
        (transformToLower (extension filename) ≠ ".pcd".toList ∧
         transformToLower (extension filename) ≠ ".ply".toList))) ∧
    (∀ filename : CppString, extension filename = [] →
      getFileFormat filename = FileFormat.UNKNOWN) ∧
    (∀ (pre : CppString) (x : Char) (e : CppString), x ≠ '/' →
      transformToLower e = ".pcd".toList →
      getFileFormat (pre ++ x :: e) = FileFormat.PCD) ∧
    (∀ (pre : CppString) (x : Char) (e : CppString), x ≠ '/' →
      transformToLower e = ".ply".toList →
      getFileFormat (pre ++ x :: e) = FileFormat.PLY) := by
  have hpcd : ".pcd".toList = ['.', 'p', 'c', 'd'] := rfl
  have hply : ".ply".toList = ['.', 'p', 'l', 'y'] := rfl
  rw [hpcd, hply]
  refine ⟨?_, ?_, ?_, ?_⟩
  · intro filename
    unfold getFileFormat
    by_cases h1 : transformToLower (extension filename) = ['.', 'p', 'c', 'd']
    · simp [h1]
    · by_cases h2 : transformToLower (extension filename) = ['.', 'p', 'l', 'y']
      · simp [h2]
      · simp [h1, h2]
  · intro filename h
    simp [getFileFormat, h, transformToLower]
  · intro pre x e hx he
    have hext := extension_of_caseMix pre x e hx he
      (by decide) (by decide) (by decide) (by decide) (by decide) (by decide)
    simp [getFileFormat, hext, he]
  · intro pre x e hx he
    have hext := extension_of_caseMix pre x e hx he
      (by decide) (by decide) (by decide) (by decide) (by decide) (by decide)
    simp [getFileFormat, hext, he]

/-- C1 at the paths `a.PCD`, `a.Pcd` and `dir/b.pLy`, and at a path without
extension. -/
theorem C1_getFileFormat_classifies_witness :
    getFileFormat "a.PCD".toList = FileFormat.PCD ∧
    getFileFormat ("".toList ++ 'a' :: ".Pcd".toList) = FileFormat.PCD ∧
    getFileFormat ("dir/".toList ++ 'b' :: ".pLy".toList) = FileFormat.PLY ∧
    getFileFormat "cloud".toList = FileFormat.UNKNOWN :=
  ⟨(C1_getFileFormat_classifies.1 "a.PCD".toList).1.mpr (by decide),
   C1_getFileFormat_classifies.2.2.1 "".toList 'a' ".Pcd".toList (by decide) (by decide),
   C1_getFileFormat_classifies.2.2.2 "dir/".toList 'b' ".pLy".toList (by decide) (by decide),
   C1_getFileFormat_classifies.2.1 "cloud".toList (by decide)⟩

/-! ## C5, C6: missing path, missing argument -/

/-- C6: without a path argument `main` prints the usage text, one statement of
fourteen operands with the program name as the second, to standard output and
returns 1, and does nothing else: no existence check, no load, no parser, no
viewer, nothing on standard error. -/
theorem C6_main_no_argument (w : World) (prog : CppString) (fuel : Nat) :
    (main w prog [] fuel).exit = some 1 ∧
    (main w prog [] fuel).trace
      = [Event.cout
        [OutItem.lit "Usage: ", OutItem.str prog, OutItem.lit " <point_cloud_file>\n",
         OutItem.lit "\nSupported formats:\n",
         OutItem.lit "  .pcd - Point Cloud Data format\n",
         OutItem.lit "  .ply - Polygon File Format\n",
         OutItem.lit "\nViewer controls:\n",
         OutItem.lit "  Mouse left button   - Rotate view\n",
         OutItem.lit "  Mouse middle button - Pan view\n",
         OutItem.lit "  Mouse wheel         - Zoom in/out\n",
         OutItem.lit "  r                   - Reset camera\n",
         OutItem.lit "  g                   - Show/hide coordinate system\n",
         OutItem.lit "  j                   - Take screenshot\n",
         OutItem.lit "  q                   - Quit\n"]] ∧
    (∀ g, Event.fsExists g ∉ (main w prog [] fuel).trace) ∧
    (∀ rep g, Event.loadCall rep g ∉ (main w prog [] fuel).trace) ∧
    (∀ fmt rep g, Event.parserCall fmt rep g ∉ (main w prog [] fuel).trace) ∧
    (∀ title, Event.viewerNew title ∉ (main w prog [] fuel).trace) ∧
    (∀ items, Event.cerr items ∉ (main w prog [] fuel).trace) := by
  rw [main_noargs]
  simp [usageItems]

/-! ## C7, C8: the cloud loader -/

/-- C7: for a path whose format is UNKNOWN, `loadPointCloud` (for either
representation) returns `false`, invokes no parser, leaves the caller's cloud
as it was and writes one error to standard error; and `main` on an existing
file with such a path writes an error to standard error, returns 1, invokes no
parser and never opens the viewer. -/
theorem C7_unknown_format (f : CppString) (h : getFileFormat f = FileFormat.UNKNOWN) :
    (∀ (rep : PointRep) (io : Parsers rep) (c : List rep.Point),
      (loadPointCloud rep io f c).ok = false ∧
      (loadPointCloud rep io f c).cloud = c ∧
      (∀ fmt rep' g, Event.parserCall fmt rep' g ∉ (loadPointCloud rep io f c).events) ∧
      (∃ items, Event.cerr items ∈ (loadPointCloud rep io f c).events)) ∧
    (∀ (w : World) (prog : CppString) (rest : List CppString) (fuel : Nat),
      w.fsExists f = some true →
      (main w prog (f :: rest) fuel).exit = some 1 ∧
      (∃ items, Event.cerr items ∈ (main w prog (f :: rest) fuel).trace) ∧
      (∀ fmt rep g, Event.parserCall fmt rep g ∉ (main w prog (f :: rest) fuel).trace) ∧
      (∀ title, Event.viewerNew title ∉ (main w prog (f :: rest) fuel).trace)) := by
  constructor
  · intro rep io c
    rw [loadPointCloud_unknown rep io f c h]
    simp
  · intro w prog rest fuel hex
    have hc : detectColor (coloredLoad w f).ok (coloredLoad w f).cloud = false := by
      unfold coloredLoad
      rw [loadPointCloud_unknown _ _ f _ h]; simp [detectColor]
    have hp : (plainLoad w f).ok = false := by
      unfold plainLoad
      rw [loadPointCloud_unknown _ _ f _ h]
    rw [main_plain_fail w prog f rest fuel hex hc hp]
    unfold coloredLoad plainLoad
    rw [loadPointCloud_unknown _ _ f _ h, loadPointCloud_unknown _ _ f _ h]
    simp [loadingMsg]

/-- C7 at the path `notes.txt`. -/
theorem C7_unknown_format_witness :
    getFileFormat "notes.txt".toList = FileFormat.UNKNOWN ∧
    (sampleWorld true 0 [] 0 []).fsExists "notes.txt".toList = some true ∧
    (main (sampleWorld true 0 [] 0 []) "viewer".toList ["notes.txt".toList] 5).exit = some 1 ∧
    (loadPointCloud PointRep.XYZ (constParsers PointRep.XYZ 0 []) "notes.txt".toList
      [⟨1, 2, 3⟩]).cloud = [⟨1, 2, 3⟩] :=
  ⟨by decide, rfl,
   ((C7_unknown_format "notes.txt".toList (by decide)).2 (sampleWorld true 0 [] 0 [])
      "viewer".toList [] 5 rfl).1,
   ((C7_unknown_format "notes.txt".toList (by decide)).1 PointRep.XYZ
      (constParsers PointRep.XYZ 0 []) [⟨1, 2, 3⟩]).2.1⟩

/-- C8: for a path whose format is PCD (PLY) and either representation,
`loadPointCloud` invokes the PCD (PLY) parser of that representation on that
path, once, and no other parser; when the parser's return code is the failure
code -1 it returns `false` and writes `Error: Could not load PCD (PLY) file: `
followed by the path to standard error; for every other return code it returns
`true`, writes nothing to standard error and hands back the parser's cloud,
whatever its size. -/
theorem C8_loadPointCloud_dispatch (rep : PointRep) (io : Parsers rep) (f : CppString)
    (c : List rep.Point) :
    (getFileFormat f = FileFormat.PCD →
      List.count (Event.parserCall FileFormat.PCD rep f) (loadPointCloud rep io f c).events = 1 ∧
      (∀ fmt rep' g, Event.parserCall fmt rep' g ∈ (loadPointCloud rep io f c).events →
        fmt = FileFormat.PCD ∧ rep' = rep ∧ g = f) ∧
      ((io.loadPCDFile f c).1 = -1 →
        (loadPointCloud rep io f c).ok = false ∧
        Event.cerr [OutItem.lit "Error: Could not load PCD file: ", OutItem.str f, OutItem.endl]
          ∈ (loadPointCloud rep io f c).events) ∧
      ((io.loadPCDFile f c).1 ≠ -1 →
        (loadPointCloud rep io f c).ok = true ∧
        (loadPointCloud rep io f c).cloud = (io.loadPCDFile f c).2 ∧
        ∀ items, Event.cerr items ∉ (loadPointCloud rep io f c).events)) ∧
    (getFileFormat f = FileFormat.PLY →
      List.count (Event.parserCall FileFormat.PLY rep f) (loadPointCloud rep io f c).events = 1 ∧
      (∀ fmt rep' g, Event.parserCall fmt rep' g ∈ (loadPointCloud rep io f c).events →
        fmt = FileFormat.PLY ∧ rep' = rep ∧ g = f) ∧
      ((io.loadPLYFile f c).1 = -1 →
        (loadPointCloud rep io f c).ok = false ∧
        Event.cerr [OutItem.lit "Error: Could not load PLY file: ", OutItem.str f, OutItem.endl]
          ∈ (loadPointCloud rep io f c).events) ∧
      ((io.loadPLYFile f c).1 ≠ -1 →
        (loadPointCloud rep io f c).ok = true ∧
        (loadPointCloud rep io f c).cloud = (io.loadPLYFile f c).2 ∧
        ∀ items, Event.cerr items ∉ (loadPointCloud rep io f c).events)) := by
  constructor
  · intro hf
    by_cases hr : (io.loadPCDFile f c).1 = -1
    · rw [loadPointCloud_pcd_fail rep io f c hf hr]
      simp [hr, List.count_cons]
    · rw [loadPointCloud_pcd_ok rep io f c hf hr]
      simp [hr, List.count_cons]
  · intro hf
    by_cases hr : (io.loadPLYFile f c).1 = -1
    · rw [loadPointCloud_ply_fail rep io f c hf hr]
      simp [hr, List.count_cons]
    · rw [loadPointCloud_ply_ok rep io f c hf hr]
      simp [hr, List.count_cons]

/-- C8 at the path `scan.pcd` with a PCD reader that succeeds with zero
points, and at `scan.ply` with a PLY reader that fails. -/
theorem C8_loadPointCloud_dispatch_witness :
    getFileFormat "scan.pcd".toList = FileFormat.PCD ∧
    (loadPointCloud PointRep.XYZ (constParsers PointRep.XYZ 0 []) "scan.pcd".toList []).ok
      = true ∧
    getFileFormat "scan.ply".toList = FileFormat.PLY ∧
    (loadPointCloud PointRep.XYZRGB (constParsers PointRep.XYZRGB (-1) []) "scan.ply".toList
      []).ok = false :=
  ⟨by decide,
   ((C8_loadPointCloud_dispatch PointRep.XYZ (constParsers PointRep.XYZ 0 [])
      "scan.pcd".toList []).1 (by decide)).2.2.2 (by decide) |>.1,
   by decide,
   ((C8_loadPointCloud_dispatch PointRep.XYZRGB (constParsers PointRep.XYZRGB (-1) [])
      "scan.ply".toList []).2 (by decide)).2.2.1 (by decide) |>.1⟩

/-! ## C2, C3: the colour decision -/

/-- C2: on an existing file whose colored load succeeds with a non-empty cloud
in which every point is black, `has_color` is `false`, the plain load is
attempted (once), the RGB field colour mapping is never registered, and if the
viewer is opened the cloud registered with it is the plain cloud with the fixed
colour (255, 255, 255). -/
theorem C2_all_black_falls_back (w : World) (prog f : CppString) (rest : List CppString)
    (fuel : Nat) (hex : w.fsExists f = some true)
    (_hok : (coloredLoad w f).ok = true)
    (_hne : (coloredLoad w f).cloud ≠ [])
    (hblack : ∀ pt ∈ (coloredLoad w f).cloud, pt.r = 0 ∧ pt.g = 0 ∧ pt.b = 0) :
    (main w prog (f :: rest) fuel).has_color = some false ∧
    List.count (Event.loadCall PointRep.XYZ f) (main w prog (f :: rest) fuel).trace = 1 ∧
    (∀ cloud id, Event.addPointCloudRGBField cloud id ∉ (main w prog (f :: rest) fuel).trace) ∧
    (∀ cloud r g b id,
      Event.addPointCloudCustom cloud r g b id ∈ (main w prog (f :: rest) fuel).trace →
      cloud = (plainLoad w f).cloud ∧ r = 255 ∧ g = 255 ∧ b = 255) ∧
    (∀ title, Event.viewerNew title ∈ (main w prog (f :: rest) fuel).trace →
      Event.addPointCloudCustom (plainLoad w f).cloud 255 255 255 "cloud"
        ∈ (main w prog (f :: rest) fuel).trace) := by
  have hc : detectColor (coloredLoad w f).ok (coloredLoad w f).cloud = false :=
    (detectColor_eq_false_iff _ _).2 (Or.inr hblack)
  by_cases hp : (plainLoad w f).ok = true
  · by_cases hn : (plainLoad w f).cloud.length = 0
    · rw [main_plain_empty w prog f rest fuel hex hc hp hn]
      simp [List.count_append, List.count_cons, coloredLoad_count, plainLoad_count,
        not_mem_coloredLoad, not_mem_plainLoad, loadingMsg, loadedMsg, emptyMsg]
    · rw [main_plain_view w prog f rest fuel hex hc hp hn]
      simp [List.count_append, List.count_cons, coloredLoad_count, plainLoad_count,
        not_mem_coloredLoad, not_mem_plainLoad, not_mem_renderLoop, renderLoop_count_loadCall,
        loadingMsg, loadedMsg, viewerSetup]
      intro cloud r g b id h1 h2 h3 h4 _
      exact ⟨h1, h2, h3, h4⟩
  · rw [main_plain_fail w prog f rest fuel hex hc (by simpa using hp)]
    simp [List.count_append, List.count_cons, coloredLoad_count, plainLoad_count,
      not_mem_coloredLoad, not_mem_plainLoad, loadingMsg]

/-- C2 in a world where `scan.pcd` exists and its colored load leaves two black
points. -/
theorem C2_all_black_falls_back_witness :
    (sampleWorld true 0 [⟨1, 2, 3, 0, 0, 0⟩, ⟨4, 5, 6, 0, 0, 0⟩] 0 [⟨1, 2, 3⟩, ⟨4, 5, 6⟩]).fsExists
      "scan.pcd".toList = some true ∧
    (coloredLoad (sampleWorld true 0 [⟨1, 2, 3, 0, 0, 0⟩, ⟨4, 5, 6, 0, 0, 0⟩] 0
      [⟨1, 2, 3⟩, ⟨4, 5, 6⟩]) "scan.pcd".toList).ok = true ∧
    (main (sampleWorld true 0 [⟨1, 2, 3, 0, 0, 0⟩, ⟨4, 5, 6, 0, 0, 0⟩] 0 [⟨1, 2, 3⟩, ⟨4, 5, 6⟩])
      "viewer".toList ["scan.pcd".toList] 5).has_color = some false :=
  ⟨rfl, by decide,
   (C2_all_black_falls_back
      (sampleWorld true 0 [⟨1, 2, 3, 0, 0, 0⟩, ⟨4, 5, 6, 0, 0, 0⟩] 0 [⟨1, 2, 3⟩, ⟨4, 5, 6⟩])
      "viewer".toList "scan.pcd".toList [] 5 rfl (by decide) (by decide) (by decide)).1⟩

/-- C3: on an existing file whose colored load succeeds with a cloud holding,
anywhere, a point with a non-zero channel, `has_color` is `true`, the plain load
is not attempted, the viewer is opened (whatever the fuel), and the cloud
registered with it is the colored cloud with the RGB field colour mapping, and
no other. -/
theorem C3_colored_cloud_shown (w : World) (prog f : CppString) (rest : List CppString)
    (fuel : Nat) (hex : w.fsExists f = some true)
    (hok : (coloredLoad w f).ok = true)
    (hpt : ∃ pt ∈ (coloredLoad w f).cloud, pt.r ≠ 0 ∨ pt.g ≠ 0 ∨ pt.b ≠ 0) :
    (main w prog (f :: rest) fuel).has_color = some true ∧
    (∀ g, Event.loadCall PointRep.XYZ g ∉ (main w prog (f :: rest) fuel).trace) ∧
    Event.viewerNew "Point Cloud Viewer" ∈ (main w prog (f :: rest) fuel).trace ∧
    Event.addPointCloudRGBField (coloredLoad w f).cloud "cloud"
      ∈ (main w prog (f :: rest) fuel).trace ∧
    (∀ cloud id, Event.addPointCloudRGBField cloud id ∈ (main w prog (f :: rest) fuel).trace →
      cloud = (coloredLoad w f).cloud) ∧
    (∀ cloud r g b id,
      Event.addPointCloudCustom cloud r g b id ∉ (main w prog (f :: rest) fuel).trace) := by
  have hc : detectColor (coloredLoad w f).ok (coloredLoad w f).cloud = true :=
    (detectColor_eq_true_iff _ _).2 ⟨hok, hpt⟩
  rw [main_colored w prog f rest fuel hex hc]
  simp [loadCall_mem_coloredLoad, not_mem_coloredLoad, not_mem_renderLoop,
    loadingMsg, loadedMsg, viewerSetup]

/-- C3 in a world where `scan.ply` exists and the last of the three points of
its colored cloud has a non-zero blue channel. -/
theorem C3_colored_cloud_shown_witness :
    (sampleWorld true 0 [⟨1, 2, 3, 0, 0, 0⟩, ⟨4, 5, 6, 0, 0, 0⟩, ⟨7, 8, 9, 0, 0, 1⟩] 0
      []).fsExists "scan.ply".toList = some true ∧
    (main (sampleWorld true 0 [⟨1, 2, 3, 0, 0, 0⟩, ⟨4, 5, 6, 0, 0, 0⟩, ⟨7, 8, 9, 0, 0, 1⟩] 0 [])
      "viewer".toList ["scan.ply".toList] 0).has_color = some true :=
  ⟨rfl,
   (C3_colored_cloud_shown
      (sampleWorld true 0 [⟨1, 2, 3, 0, 0, 0⟩, ⟨4, 5, 6, 0, 0, 0⟩, ⟨7, 8, 9, 0, 0, 1⟩] 0 [])
      "viewer".toList "scan.ply".toList [] 0 rfl (by decide)
      ⟨⟨7, 8, 9, 0, 0, 1⟩, by decide, by decide⟩).1⟩

/-! ## C4: an empty cloud is never shown -/

/-- C4: on an existing file whose colored load and plain load both succeed with
zero points, `main` writes `Error: Point cloud is empty` to standard error,
returns 1 and never constructs the viewer; and in every run of `main`, every
cloud registered with the viewer has at least one point, and a run that
constructs the viewer registers a cloud. -/
theorem C4_empty_cloud_refused (w : World) (prog : CppString) (fuel : Nat) :
    (∀ (f : CppString) (rest : List CppString), w.fsExists f = some true →
      (coloredLoad w f).ok = true → (coloredLoad w f).cloud.length = 0 →
      (plainLoad w f).ok = true → (plainLoad w f).cloud.length = 0 →
      (main w prog (f :: rest) fuel).exit = some 1 ∧
      Event.cerr [OutItem.lit "Error: Point cloud is empty", OutItem.endl]
        ∈ (main w prog (f :: rest) fuel).trace ∧
      (∀ title, Event.viewerNew title ∉ (main w prog (f :: rest) fuel).trace)) ∧
    (∀ args : List CppString,
      (∀ cloud id, Event.addPointCloudRGBField cloud id ∈ (main w prog args fuel).trace →
        0 < cloud.length) ∧
      (∀ cloud r g b id, Event.addPointCloudCustom cloud r g b id ∈ (main w prog args fuel).trace →
        0 < cloud.length) ∧
      (∀ title, Event.viewerNew title ∈ (main w prog args fuel).trace →
        (∃ cloud id, Event.addPointCloudRGBField cloud id ∈ (main w prog args fuel).trace) ∨
        (∃ cloud r g b id,
          Event.addPointCloudCustom cloud r g b id ∈ (main w prog args fuel).trace))) := by
  constructor
  · intro f rest hex hok hlen hp hn
    have hc : detectColor (coloredLoad w f).ok (coloredLoad w f).cloud = false := by
      rw [detectColor_eq_false_iff]
      right
      rw [List.length_eq_zero] at hlen
      simp [hlen]
    rw [main_plain_empty w prog f rest fuel hex hc hp hn]
    simp [not_mem_coloredLoad, not_mem_plainLoad, loadingMsg, loadedMsg, emptyMsg]
  · intro args
    cases args with
    | nil => rw [main_noargs]; simp
    | cons f rest =>
      by_cases hex : w.fsExists f = some true
      · by_cases hc : detectColor (coloredLoad w f).ok (coloredLoad w f).cloud = true
        · have hpos : 0 < (coloredLoad w f).cloud.length := by
            obtain ⟨_, pt, hm, _⟩ := (detectColor_eq_true_iff _ _).1 hc
            exact List.length_pos_of_mem hm
          rw [main_colored w prog f rest fuel hex hc]
          simp [not_mem_coloredLoad, not_mem_renderLoop, loadingMsg, loadedMsg, viewerSetup]
          exact hpos
        · have hc' : detectColor (coloredLoad w f).ok (coloredLoad w f).cloud = false := by
            simpa using hc
          by_cases hp : (plainLoad w f).ok = true
          · by_cases hn : (plainLoad w f).cloud.length = 0
            · rw [main_plain_empty w prog f rest fuel hex hc' hp hn]
              simp [not_mem_coloredLoad, not_mem_plainLoad, loadingMsg, loadedMsg, emptyMsg]
            · rw [main_plain_view w prog f rest fuel hex hc' hp hn]
              simp [not_mem_coloredLoad, not_mem_plainLoad, not_mem_renderLoop, loadingMsg,
                loadedMsg, viewerSetup]
              intro cloud r g b id h _ _ _ _
              rw [h]; exact Nat.pos_of_ne_zero hn
          · rw [main_plain_fail w prog f rest fuel hex hc' (by simpa using hp)]
            simp [not_mem_coloredLoad, not_mem_plainLoad, loadingMsg]
      · cases hfs : w.fsExists f with
        | none => rw [main_throws w prog f rest fuel hfs]; simp
        | some b =>
          cases b with
          | true => exact absurd hfs hex
          | false => rw [main_missing w prog f rest fuel hfs]; simp [missingMsg]

/-- C4 in a world where `void.pcd` exists and both its loads succeed with zero
points. -/
theorem C4_empty_cloud_refused_witness :
    (sampleWorld true 0 [] 0 []).fsExists "void.pcd".toList = some true ∧
    (coloredLoad (sampleWorld true 0 [] 0 []) "void.pcd".toList).ok = true ∧
    (coloredLoad (sampleWorld true 0 [] 0 []) "void.pcd".toList).cloud.length = 0 ∧
    (plainLoad (sampleWorld true 0 [] 0 []) "void.pcd".toList).ok = true ∧
    (plainLoad (sampleWorld true 0 [] 0 []) "void.pcd".toList).cloud.length = 0 ∧
    (main (sampleWorld true 0 [] 0 []) "viewer".toList ["void.pcd".toList] 5).exit = some 1 :=
  ⟨rfl, by decide, by decide, by decide, by decide,
   ((C4_empty_cloud_refused (sampleWorld true 0 [] 0 []) "viewer".toList 5).1
      "void.pcd".toList [] rfl (by decide) (by decide) (by decide) (by decide)).1⟩

/-! ## C10: the fallback to the plain load -/

/-- C10: on an existing file whose colored load fails, or succeeds with zero
points, or succeeds with an all-black cloud, the colored load and the plain
load are each attempted exactly once, the colored one first, and the plain load
decides the outcome: when it fails `main` returns 1 without opening the viewer;
when it succeeds with zero points `main` returns 1 with the empty-cloud error
and without opening the viewer; when it succeeds with `n > 0` points `main`
prints `Loaded n points` and opens the viewer on the plain cloud with the fixed
colour. -/
theorem C10_plain_load_decides (w : World) (prog f : CppString) (rest : List CppString)
    (fuel : Nat) (hex : w.fsExists f = some true)
    (hfall : (coloredLoad w f).ok = false ∨
      ((coloredLoad w f).ok = true ∧ (coloredLoad w f).cloud.length = 0) ∨
      ((coloredLoad w f).ok = true ∧
        ∀ pt ∈ (coloredLoad w f).cloud, pt.r = 0 ∧ pt.g = 0 ∧ pt.b = 0)) :
    List.count (Event.loadCall PointRep.XYZRGB f) (main w prog (f :: rest) fuel).trace = 1 ∧
    List.count (Event.loadCall PointRep.XYZ f) (main w prog (f :: rest) fuel).trace = 1 ∧
    (∃ a b c, (main w prog (f :: rest) fuel).trace
      = a ++ Event.loadCall PointRep.XYZRGB f :: (b ++ Event.loadCall PointRep.XYZ f :: c)) ∧
    ((plainLoad w f).ok = false →
      (main w prog (f :: rest) fuel).exit = some 1 ∧
      (∀ title, Event.viewerNew title ∉ (main w prog (f :: rest) fuel).trace)) ∧
    ((plainLoad w f).ok = true → (plainLoad w f).cloud.length = 0 →
      (main w prog (f :: rest) fuel).exit = some 1 ∧
      Event.cerr [OutItem.lit "Error: Point cloud is empty", OutItem.endl]
        ∈ (main w prog (f :: rest) fuel).trace ∧
      (∀ title, Event.viewerNew title ∉ (main w prog (f :: rest) fuel).trace)) ∧
    ((plainLoad w f).ok = true → 0 < (plainLoad w f).cloud.length →
      Event.cout [OutItem.lit "Loaded ", OutItem.size (plainLoad w f).cloud.length,
                  OutItem.lit " points", OutItem.endl]
        ∈ (main w prog (f :: rest) fuel).trace ∧
      Event.viewerNew "Point Cloud Viewer" ∈ (main w prog (f :: rest) fuel).trace ∧
      Event.addPointCloudCustom (plainLoad w f).cloud 255 255 255 "cloud"
        ∈ (main w prog (f :: rest) fuel).trace ∧
      (∀ cloud id,
        Event.addPointCloudRGBField cloud id ∉ (main w prog (f :: rest) fuel).trace)) := by
  have hc : detectColor (coloredLoad w f).ok (coloredLoad w f).cloud = false := by
    rw [detectColor_eq_false_iff]
    rcases hfall with h | ⟨_, h⟩ | ⟨_, h⟩
    · exact Or.inl h
    · right; rw [List.length_eq_zero] at h; simp [h]
    · exact Or.inr h
  have hce : (coloredLoad w f).events
      = Event.loadCall PointRep.XYZRGB f :: (coloredLoad w f).events.tail :=
    loadPointCloud_events_cons _ _ _ _
  have hpe : (plainLoad w f).events
      = Event.loadCall PointRep.XYZ f :: (plainLoad w f).events.tail :=
    loadPointCloud_events_cons _ _ _ _
  by_cases hp : (plainLoad w f).ok = true
  · by_cases hn : (plainLoad w f).cloud.length = 0
    · rw [main_plain_empty w prog f rest fuel hex hc hp hn]
      refine ⟨?_, ?_, ⟨[Event.fsExists f, loadingMsg f], (coloredLoad w f).events.tail,
        (plainLoad w f).events.tail ++ [loadedMsg 0, emptyMsg], ?_⟩, ?_, ?_, ?_⟩
      · simp [List.count_append, List.count_cons, coloredLoad_count, plainLoad_count,
          loadingMsg, loadedMsg, emptyMsg]
      · simp [List.count_append, List.count_cons, coloredLoad_count, plainLoad_count,
          loadingMsg, loadedMsg, emptyMsg]
      · simp only []
        nth_rewrite 1 [hce]
        nth_rewrite 1 [hpe]
        simp
      · simp [hp]
      · simp [not_mem_coloredLoad, not_mem_plainLoad, loadingMsg, loadedMsg, emptyMsg]
      · intro _ h; omega
    · rw [main_plain_view w prog f rest fuel hex hc hp hn]
      refine ⟨?_, ?_, ⟨[Event.fsExists f, loadingMsg f], (coloredLoad w f).events.tail,
        (plainLoad w f).events.tail ++ loadedMsg (plainLoad w f).cloud.length
          :: (viewerSetup false (coloredLoad w f).cloud (plainLoad w f).cloud
              ++ (renderLoop w.wasStopped fuel 0).1), ?_⟩, ?_, ?_, ?_⟩
      · simp [List.count_append, List.count_cons, coloredLoad_count, plainLoad_count,
          renderLoop_count_loadCall, loadingMsg, loadedMsg, viewerSetup]
      · simp [List.count_append, List.count_cons, coloredLoad_count, plainLoad_count,
          renderLoop_count_loadCall, loadingMsg, loadedMsg, viewerSetup]
      · simp only []
        nth_rewrite 1 [hce]
        nth_rewrite 1 [hpe]
        simp
      · simp [hp]
      · intro _ h; exact absurd h hn
      · intro _ _
        simp [not_mem_coloredLoad, not_mem_plainLoad, not_mem_renderLoop, loadingMsg,
          loadedMsg, viewerSetup]
  · have hp' : (plainLoad w f).ok = false := by simpa using hp
    rw [main_plain_fail w prog f rest fuel hex hc hp']
    refine ⟨?_, ?_, ⟨[Event.fsExists f, loadingMsg f], (coloredLoad w f).events.tail,
      (plainLoad w f).events.tail, ?_⟩, ?_, ?_, ?_⟩
    · simp [List.count_append, List.count_cons, coloredLoad_count, plainLoad_count, loadingMsg]
    · simp [List.count_append, List.count_cons, coloredLoad_count, plainLoad_count, loadingMsg]
    · simp only []
      nth_rewrite 1 [hce]
      nth_rewrite 1 [hpe]
      simp
    · intro _
      simp [not_mem_coloredLoad, not_mem_plainLoad, loadingMsg]
    · intro h; rw [hp'] at h; cases h
    · intro h; rw [hp'] at h; cases h

/-- C10 in a world where `scan.pcd` exists, its colored load fails and its
plain load succeeds with one point. -/
theorem C10_plain_load_decides_witness :
    (sampleWorld true (-1) [] 0 [⟨1, 2, 3⟩]).fsExists "scan.pcd".toList = some true ∧
    (coloredLoad (sampleWorld true (-1) [] 0 [⟨1, 2, 3⟩]) "scan.pcd".toList).ok = false ∧
    List.count (Event.loadCall PointRep.XYZ "scan.pcd".toList)
      (main (sampleWorld true (-1) [] 0 [⟨1, 2, 3⟩]) "viewer".toList ["scan.pcd".toList]
        5).trace = 1 :=
  ⟨rfl, by decide,
   (C10_plain_load_decides (sampleWorld true (-1) [] 0 [⟨1, 2, 3⟩]) "viewer".toList
      "scan.pcd".toList [] 5 rfl (Or.inl (by decide))).2.1⟩

/-! ## C9: errors and the exit code -/

end PointCloudViewer
